import Mathlib

/-!
# Package `fields` (`src/fields/main.go`)

A shallow embedding of the field registry, the shared blank/null validation
policy and the width handling of the rendering wrapper, followed by the
properties stated about them.

Conventions of the embedding

* `interface{}` values are the dynamic values of `Value`; the type assertions
  `x.(string)` and `x.(bool)` succeed exactly on `Value.str` and `Value.bool`.
* An `error` is its message, `none` being the nil error.
* Go maps are partial functions from keys.
* Methods of a `Field` are functions of their arguments; the calls `Validate`
  makes on the field are kept in a call log so that what the field was asked to
  do can be stated.
* A run-time panic is an `Except.error`.
-/

namespace Fields

/-- An error value: `none` is the nil error, `some msg` an error whose message is `msg`. -/
abbrev GoError := Option String

/-- Dynamic values held by an `interface{}`. -/
inductive Value where
  | nil
  | str (s : String)
  | bool (b : Bool)
  | int (n : Int)
  | html (s : String)
  | other (tag : Nat)
  deriving DecidableEq, Repr

/-- The type assertion `_, isBool := val.(bool)`. -/
def Value.isBool : Value → Bool
  | .bool _ => true
  | _ => false

/-- Run-time panics the code can raise. -/
inductive GoPanic where
  | nilDereference
  | indexOutOfRange
  | value (msg : String)
  deriving DecidableEq, Repr

/-- The struct `BaseField`, lines 35-48. -/
structure BaseField where
  Name : String
  Label : String
  DefaultValue : Value
  Blank : Bool
  Null : Bool
  ColumnName : String
  List : Bool
  Searchable : Bool
  Width : Int
  Right : Bool
  Help : String
  RelationTable : String
  deriving DecidableEq, Repr

/-- The zero value `BaseField{}`. -/
def BaseField.zero : BaseField :=
  { Name := "", Label := "", DefaultValue := .nil, Blank := false, Null := false,
    ColumnName := "", List := false, Searchable := false, Width := 0, Right := false,
    Help := "", RelationTable := "" }

/-- The method `(b *BaseField) Configure`, lines 50-52. -/
def BaseField.Configure (_b : BaseField) (_tagMap : String → Option String) : GoError :=
  none

/-- The method `(b *BaseField) Validate`, lines 54-56. -/
def BaseField.Validate (_b : BaseField) (val : String) : Value × GoError :=
  (.str val, none)

/-- The method `(b *BaseField) Attrs`, lines 62-64 (the receiver is not nil). -/
def BaseField.Attrs (b : BaseField) : Option BaseField :=
  some b

/-- The part of `multipart.FileHeader` a field handler can look at. -/
structure FileHeader where
  Filename : String
  Size : Int
  deriving DecidableEq, Repr

/-- The interface `Field`, lines 13-19, together with the optional capability
`FileHandlerField`, lines 21-23: `HandleFile` is `some h` exactly when the
dynamic type of the field implements `FileHandlerField`. `Attrs` is `none` when
the method returns a nil pointer. A value of this type stands for an interface
value that is not nil. -/
structure Field where
  Configure : (String → Option String) → GoError
  Render : Value → String → Bool → String
  RenderString : Value → String
  Validate : String → Value × GoError
  Attrs : Option BaseField
  HandleFile : Option (FileHeader → String × GoError)

/-! ## Rendering wrapper -/

/-- The context map `map[string]interface{}` handed to the templates. -/
abbrev Ctx := String → Option Value

/-- The assignment `ctx[key] = v`. -/
def Ctx.set (ctx : Ctx) (key : String) (v : Value) : Ctx :=
  fun k => if k = key then some v else ctx k

/-- A parsed template: what `Execute` writes for a context, and the error it returns. -/
abbrev Template := Ctx → String × GoError

/-- Everything `BaseRender` changes: the receiver, the context map, the
writer `w`, and standard output. -/
structure RenderEffect where
  b : BaseField
  ctx : Ctx
  w : String
  stdout : String

/-- The method `(b *BaseField) BaseRender`, lines 66-90. The package-level template
`fieldWrapper` is a parameter. -/
def BaseField.BaseRender (fieldWrapper : Template) (b : BaseField) (tmpl : Template)
    (value : Value) (errStr : String) (startRow : Bool) (ctx : Option Ctx) : RenderEffect :=
  let ctx : Ctx := match ctx with
    | none => fun _ => none
    | some c => c
  let ctx := ctx.set "label" (.str b.Label)
  let ctx := ctx.set "blank" (.bool b.Blank)
  let ctx := ctx.set "name" (.str b.Name)
  let ctx := ctx.set "value" value
  let ctx := ctx.set "error" (.str errStr)
  let ctx := ctx.set "help" (.str b.Help)
  let ctx := ctx.set "startrow" (.bool startRow)
  let b := if b.Width = 0 then { b with Width := 12 } else b
  let ctx := ctx.set "width" (.int b.Width)
  let buf := (tmpl ctx).1
  let ctx := ctx.set "field" (.html buf)
  match fieldWrapper ctx with
  | (out, some err) => { b := b, ctx := ctx, w := out, stdout := err ++ "\n" }
  | (out, none) => { b := b, ctx := ctx, w := out, stdout := "" }

/-! ## Registry -/

/-- The map `customFields`, a `map[string]Field`. -/
abbrev Registry := String → Option Field

/-- The initial value of `customFields`, lines 92-95. The types `URLField` and
`FileField` are declared outside this file, so the two built-in values are
parameters. -/
def customFields (urlField fileField : Field) : Registry :=
  fun name => if name = "url" then some urlField
    else if name = "file" then some fileField
    else none

/-- The function `RegisterCustom`, lines 97-108: the registry after the call and the
returned error. -/
def RegisterCustom (reg : Registry) (name : String) (field : Field) : Registry × GoError :=
  match reg name with
  | some _ => (reg, some ("A field with the name " ++ name ++ " already exists."))
  | none =>
    match field.Attrs with
    | none => (reg, some "Add a *BaseField and other initial values if needed before registering.")
    | some _ => (fun k => if k = name then some field else reg k, none)

/-- The function `GetCustom`, lines 110-116; `none` is the nil `Field`. -/
def GetCustom (reg : Registry) (name : String) : Option Field :=
  match reg name with
  | some field => some field
  | none => none

/-- A sequence of `RegisterCustom` calls, each on the registry the previous one left. -/
def registerAll (reg : Registry) : List (String × Field) → Registry
  | [] => reg
  | (name, field) :: rest => registerAll (RegisterCustom reg name field).1 rest

/-! ## Validation -/

/-- The type `url.Values`, a `map[string][]string`. -/
abbrev Values := String → Option (List String)

/-- The method `url.Values.Get`: the first value under the key, or the empty string. -/
def Values.Get (v : Values) (key : String) : String :=
  match v key with
  | some (x :: _) => x
  | _ => ""

/-- The struct `multipart.Form`. -/
structure MultipartForm where
  Value : Values
  File : String → Option (List FileHeader)

/-- The fields of `http.Request` that `Validate` reads, the request pointer itself
not being nil. `MultipartForm` is `none` when that pointer is nil. -/
structure Request where
  Form : Values
  MultipartForm : Option MultipartForm

/-- A call made on the field during `Validate`. -/
inductive Call where
  | HandleFile (fh : FileHeader)
  | Validate (raw : String)
  deriving DecidableEq, Repr

/-- A run: the calls made on the field, in order, and the outcome. -/
structure Run (α : Type) where
  calls : List Call
  result : Except GoPanic α

/-- Lines 119-134 of `Validate`: how the raw value handed to `field.Validate` is
determined. -/
def Validate.rawValue (field : Field) (req : Request) (existing : Value) : Run String :=
  match field.Attrs with
  | none => ⟨[], .error .nilDereference⟩
  | some attrs =>
    let fieldName := attrs.Name
    let rawValue := req.Form.Get fieldName
    match field.HandleFile with
    | some handleFile =>
      match req.MultipartForm with
      | none => ⟨[], .error .nilDereference⟩
      | some form =>
        match form.File fieldName with
        | some files =>
          match files with
          | [] => ⟨[], .error .indexOutOfRange⟩
          | fh :: _ =>
            match handleFile fh with
            | (_, some err) => ⟨[.HandleFile fh], .error (.value err)⟩
            | (filename, none) => ⟨[.HandleFile fh], .ok filename⟩
        | none =>
          match existing with
          | .str oldValue => ⟨[], .ok oldValue⟩
          | _ => ⟨[], .ok rawValue⟩
    | none => ⟨[], .ok rawValue⟩

/-- Lines 137-150 of `Validate`: the result of `field.Validate` on the raw value and
the blank/null policy applied to it. -/
def Validate.policy (field : Field) (rawValue : String) : Except GoPanic (Value × GoError) :=
  match field.Validate rawValue with
  | (val, err) =>
    let isBool := val.isBool
    if rawValue.utf8ByteSize = 0 ∧ ¬ isBool = true then
      match field.Attrs with
      | none => .error .nilDereference
      | some attrs =>
        if attrs.Blank = true then
          if attrs.Null = true then .ok (.nil, none)
          else .ok (.str rawValue, none)
        else .ok (.nil, some "This field can't be empty.")
    else .ok (val, err)

/-- The function `Validate`, lines 118-151. -/
def Validate (field : Field) (req : Request) (existing : Value) : Run (Value × GoError) :=
  match Validate.rawValue field req existing with
  | ⟨calls, .error p⟩ => ⟨calls, .error p⟩
  | ⟨calls, .ok rawValue⟩ => ⟨calls ++ [.Validate rawValue], Validate.policy field rawValue⟩

/-! ## Sample fields -/

/-- A field that embeds a `*BaseField` and takes `Configure`, `Validate` and `Attrs`
from it. -/
def textField (b : BaseField) : Field :=
  { Configure := b.Configure
    Render := fun _ _ _ => ""
    RenderString := fun _ => ""
    Validate := b.Validate
    Attrs := b.Attrs
    HandleFile := none }

/-- A checkbox: its `Validate` returns a `bool`, true when the box was ticked. -/
def checkboxField (b : BaseField) : Field :=
  { textField b with Validate := fun raw => (.bool (raw = "on"), none) }

/-- A file field: `HandleFile` stores the upload under its own file name. -/
def uploadField (b : BaseField) : Field :=
  { textField b with HandleFile := some (fun fh => (fh.Filename, none)) }

/-- A field whose `Attrs` returns nil: no `*BaseField` was set. -/
def bareField : Field :=
  { textField BaseField.zero with Attrs := none }

/-- The zero `BaseField` with a name. -/
def named (name : String) : BaseField :=
  { BaseField.zero with Name := name }

/-- A request whose form has one value under one key and no multipart form. -/
def formRequest (key value : String) : Request :=
  { Form := fun k => if k = key then some [value] else none
    MultipartForm := none }

/-- A multipart request: one form value under `key` and the given files under `key`. -/
def multipartRequest (key value : String) (files : Option (List FileHeader)) : Request :=
  { Form := fun k => if k = key then some [value] else none
    MultipartForm := some
      { Value := fun k => if k = key then some [value] else none
        File := fun k => if k = key then files else none } }

/-! ## Auxiliary facts -/

theorem utf8ByteSize_go_pos (c : Char) (cs : List Char) :
    0 < String.utf8ByteSize.go (c :: cs) := by
  have h := Char.utf8Size_pos c
  simp only [String.utf8ByteSize.go]
  omega

/-- In Go `len(s) == 0` holds exactly for the empty string. -/
theorem utf8ByteSize_eq_zero_iff (s : String) : s.utf8ByteSize = 0 ↔ s = "" := by
  constructor
  · intro h
    rcases s with ⟨cs⟩
    cases cs with
    | nil => rfl
    | cons c cs =>
      have := utf8ByteSize_go_pos c cs
      simp only [String.utf8ByteSize] at h
      omega
  · rintro rfl
    rfl

theorem GetCustom_eq (reg : Registry) (name : String) : GetCustom reg name = reg name := by
  unfold GetCustom
  cases reg name <;> rfl

theorem RegisterCustom_present (reg : Registry) (name : String) (field : Field)
    (h : (reg name).isSome = true) :
    RegisterCustom reg name field
      = (reg, some ("A field with the name " ++ name ++ " already exists.")) := by
  unfold RegisterCustom
  cases hr : reg name with
  | none => simp [hr] at h
  | some f => rfl

theorem RegisterCustom_absent_nil (reg : Registry) (name : String) (field : Field)
    (h : reg name = none) (hnil : field.Attrs = none) :
    RegisterCustom reg name field
      = (reg, some "Add a *BaseField and other initial values if needed before registering.") := by
  unfold RegisterCustom
  simp only [h, hnil]

theorem RegisterCustom_absent_ok (reg : Registry) (name : String) (field : Field)
    (h : reg name = none) (hattrs : field.Attrs ≠ none) :
    RegisterCustom reg name field
      = (fun k => if k = name then some field else reg k, none) := by
  unfold RegisterCustom
  cases ha : field.Attrs with
  | none => exact absurd ha hattrs
  | some a => simp only [h]

/-- One call either leaves an entry as it was or stores the registered field, whose
`Attrs` is then not nil. -/
theorem RegisterCustom_entry (reg : Registry) (name : String) (field : Field)
    (k : String) (f : Field) (h : (RegisterCustom reg name field).1 k = some f) :
    reg k = some f ∨ (k = name ∧ f = field ∧ field.Attrs ≠ none) := by
  cases hr : reg name with
  | some g =>
    rw [RegisterCustom_present reg name field (by simp [hr])] at h
    exact Or.inl h
  | none =>
    cases ha : field.Attrs with
    | none =>
      rw [RegisterCustom_absent_nil reg name field hr ha] at h
      exact Or.inl h
    | some a =>
      rw [RegisterCustom_absent_ok reg name field hr (by simp [ha])] at h
      by_cases hk : k = name
      · simp only [hk, if_true, Option.some.injEq] at h
        exact Or.inr ⟨hk, h.symm, by simp⟩
      · simp only [hk, if_false] at h
        exact Or.inl h

/-- After any sequence of calls an entry is either an initial one or one of the
registered fields, with `Attrs` not nil. -/
theorem registerAll_entry (calls : List (String × Field)) :
    ∀ (init : Registry) (k : String) (f : Field), registerAll init calls k = some f →
      init k = some f ∨ ((k, f) ∈ calls ∧ f.Attrs ≠ none) := by
  induction calls with
  | nil => intro init k f h; exact Or.inl h
  | cons c rest ih =>
    intro init k f h
    obtain ⟨name, field⟩ := c
    simp only [registerAll] at h
    rcases ih _ k f h with h1 | ⟨hmem, hattrs⟩
    · rcases RegisterCustom_entry init name field k f h1 with h2 | ⟨hk, hf, ha⟩
      · exact Or.inl h2
      · subst hk; subst hf
        exact Or.inr ⟨List.mem_cons_self _ _, ha⟩
    · exact Or.inr ⟨List.mem_cons_of_mem _ hmem, hattrs⟩

/-- A name that is neither initial nor registered stays absent. -/
theorem registerAll_absent (calls : List (String × Field)) :
    ∀ (init : Registry) (k : String), init k = none → (∀ c ∈ calls, c.1 ≠ k) →
      registerAll init calls k = none := by
  intro init k hinit hcalls
  cases h : registerAll init calls k with
  | none => rfl
  | some f =>
    rcases registerAll_entry calls init k f h with h1 | ⟨hmem, _⟩
    · rw [hinit] at h1; cases h1
    · exact absurd rfl (hcalls _ hmem)

theorem policy_of_nonempty (field : Field) (raw : String) (h : raw ≠ "") :
    Validate.policy field raw = .ok (field.Validate raw) := by
  have h0 : ¬ raw.utf8ByteSize = 0 := fun h0 => h ((utf8ByteSize_eq_zero_iff raw).1 h0)
  unfold Validate.policy
  simp [h0]

theorem policy_of_bool (field : Field) (raw : String)
    (h : (field.Validate raw).1.isBool = true) :
    Validate.policy field raw = .ok (field.Validate raw) := by
  unfold Validate.policy
  simp [h]

theorem policy_of_empty (field : Field) (attrs : BaseField)
    (hattrs : field.Attrs = some attrs) (h : (field.Validate "").1.isBool = false) :
    Validate.policy field ""
      = .ok (if attrs.Blank = true then
               (if attrs.Null = true then (Value.nil, none) else (Value.str "", none))
             else (Value.nil, some "This field can't be empty.")) := by
  unfold Validate.policy
  simp only [h, hattrs]
  by_cases hb : attrs.Blank = true <;> by_cases hn : attrs.Null = true <;>
    simp [hb, hn, (utf8ByteSize_eq_zero_iff "").2 rfl]

/-- Once the raw value is determined, `Validate` calls `field.Validate` on it and
applies the policy. -/
theorem Validate_of_rawValue (field : Field) (req : Request) (existing : Value)
    (raw : String) (h : (Validate.rawValue field req existing).result = .ok raw) :
    Validate field req existing
      = ⟨(Validate.rawValue field req existing).calls ++ [.Validate raw],
          Validate.policy field raw⟩ := by
  unfold Validate
  rcases hr : Validate.rawValue field req existing with ⟨calls, res⟩
  rw [hr] at h
  simp only at h
  subst h
  rfl

/-- A field that is no file handler is validated on the form value. -/
theorem rawValue_plain (field : Field) (req : Request) (existing : Value)
    (attrs : BaseField) (hattrs : field.Attrs = some attrs)
    (hplain : field.HandleFile = none) :
    Validate.rawValue field req existing = ⟨[], .ok (req.Form.Get attrs.Name)⟩ := by
  unfold Validate.rawValue
  simp only [hattrs, hplain]

theorem rawValue_upload (field : Field) (req : Request) (existing : Value)
    (attrs : BaseField) (handleFile : FileHeader → String × GoError) (form : MultipartForm)
    (fh : FileHeader) (rest : List FileHeader) (filename : String)
    (hattrs : field.Attrs = some attrs) (hfile : field.HandleFile = some handleFile)
    (hform : req.MultipartForm = some form)
    (hfiles : form.File attrs.Name = some (fh :: rest))
    (hhandled : handleFile fh = (filename, none)) :
    Validate.rawValue field req existing = ⟨[.HandleFile fh], .ok filename⟩ := by
  unfold Validate.rawValue
  simp only [hattrs, hfile, hform, hfiles, hhandled]

theorem rawValue_existing (field : Field) (req : Request) (old : String)
    (attrs : BaseField) (handleFile : FileHeader → String × GoError) (form : MultipartForm)
    (hattrs : field.Attrs = some attrs) (hfile : field.HandleFile = some handleFile)
    (hform : req.MultipartForm = some form) (hfiles : form.File attrs.Name = none) :
    Validate.rawValue field req (.str old) = ⟨[], .ok old⟩ := by
  unfold Validate.rawValue
  simp only [hattrs, hfile, hform, hfiles]

theorem rawValue_no_upload (field : Field) (req : Request) (existing : Value)
    (attrs : BaseField) (handleFile : FileHeader → String × GoError) (form : MultipartForm)
    (hattrs : field.Attrs = some attrs) (hfile : field.HandleFile = some handleFile)
    (hform : req.MultipartForm = some form) (hfiles : form.File attrs.Name = none)
    (hexisting : ∀ s, existing ≠ .str s) :
    Validate.rawValue field req existing = ⟨[], .ok (req.Form.Get attrs.Name)⟩ := by
  unfold Validate.rawValue
  cases existing with
  | str s => exact absurd rfl (hexisting s)
  | _ => simp only [hattrs, hfile, hform, hfiles]

/-- The receiver after `BaseRender`: only a zero `Width` is changed, to 12. -/
theorem BaseRender_b (fieldWrapper : Template) (b : BaseField) (tmpl : Template)
    (value : Value) (errStr : String) (startRow : Bool) (ctx : Option Ctx) :
    (BaseField.BaseRender fieldWrapper b tmpl value errStr startRow ctx).b
      = if b.Width = 0 then { b with Width := 12 } else b := by
  unfold BaseField.BaseRender
  dsimp only
  split <;> rfl

/-- The context after `BaseRender` holds the receiver's resulting width. -/
theorem BaseRender_ctx_width (fieldWrapper : Template) (b : BaseField) (tmpl : Template)
    (value : Value) (errStr : String) (startRow : Bool) (ctx : Option Ctx) :
    (BaseField.BaseRender fieldWrapper b tmpl value errStr startRow ctx).ctx "width"
      = some (.int (if b.Width = 0 then { b with Width := 12 } else b).Width) := by
  unfold BaseField.BaseRender
  dsimp only
  split <;> simp [Ctx.set]

/-! ## Registry: duplicate names, new names, fields without a `*BaseField` -/

/-- C1: registering under a name that is already present returns the error
"A field with the name <name> already exists." and leaves the registry as it was,
so `GetCustom` of every name returns the same field as before; this holds in
particular for the built-in names "url" and "file" of the initial registry. -/
theorem RegisterCustom_existing_name (reg : Registry) (name : String) (field : Field)
    (hpresent : (reg name).isSome = true) :
    (RegisterCustom reg name field).2
        = some ("A field with the name " ++ name ++ " already exists.")
    ∧ (RegisterCustom reg name field).1 = reg
    ∧ (∀ k, GetCustom (RegisterCustom reg name field).1 k = GetCustom reg k)
    ∧ (∀ urlField fileField : Field,
        RegisterCustom (customFields urlField fileField) "url" field
            = (customFields urlField fileField,
                some "A field with the name url already exists.")
        ∧ RegisterCustom (customFields urlField fileField) "file" field
            = (customFields urlField fileField,
                some "A field with the name file already exists.")) := by
  rw [RegisterCustom_present reg name field hpresent]
  refine ⟨rfl, rfl, fun _ => rfl, fun urlField fileField => ⟨?_, ?_⟩⟩
  · exact RegisterCustom_present _ "url" field (by simp [customFields])
  · exact RegisterCustom_present _ "file" field (by simp [customFields])

theorem RegisterCustom_existing_name_witness :
    (customFields (textField BaseField.zero) (uploadField BaseField.zero) "url").isSome = true
    ∧ (RegisterCustom (customFields (textField BaseField.zero) (uploadField BaseField.zero))
        "url" (checkboxField BaseField.zero)).2
        = some "A field with the name url already exists." :=
  ⟨by decide,
    (RegisterCustom_existing_name
      (customFields (textField BaseField.zero) (uploadField BaseField.zero))
      "url" (checkboxField BaseField.zero) (by decide)).1⟩

/-- C2: registering a field whose `Attrs()` is not nil under a name that is not
present returns nil; afterwards `GetCustom` of that name is exactly that field and
`GetCustom` of every other name is what it was; and after any sequence of
registrations on the initial registry, `GetCustom` of a name that is neither
built in nor was ever registered is nil. -/
theorem RegisterCustom_new_name (reg : Registry) (name : String) (field : Field)
    (habsent : reg name = none) (hattrs : field.Attrs ≠ none) :
    (RegisterCustom reg name field).2 = none
    ∧ GetCustom (RegisterCustom reg name field).1 name = some field
    ∧ (∀ other, other ≠ name →
        GetCustom (RegisterCustom reg name field).1 other = GetCustom reg other)
    ∧ (∀ (urlField fileField : Field) (calls : List (String × Field)) (k : String),
        k ≠ "url" → k ≠ "file" → (∀ c ∈ calls, c.1 ≠ k) →
        GetCustom (registerAll (customFields urlField fileField) calls) k = none) := by
  rw [RegisterCustom_absent_ok reg name field habsent hattrs]
  refine ⟨rfl, ?_, ?_, ?_⟩
  · rw [GetCustom_eq]; simp
  · intro other hne
    rw [GetCustom_eq, GetCustom_eq]; simp [hne]
  · intro urlField fileField calls k hurl hfile hcalls
    rw [GetCustom_eq]
    apply registerAll_absent calls _ k _ hcalls
    simp [customFields, hurl, hfile]

theorem RegisterCustom_new_name_witness :
    customFields (textField BaseField.zero) (uploadField BaseField.zero) "check" = none
    ∧ (checkboxField (named "agree")).Attrs ≠ none
    ∧ (RegisterCustom (customFields (textField BaseField.zero) (uploadField BaseField.zero))
        "check" (checkboxField (named "agree"))).2 = none :=
  ⟨by simp [customFields], by simp [checkboxField, textField, BaseField.Attrs],
    (RegisterCustom_new_name
      (customFields (textField BaseField.zero) (uploadField BaseField.zero))
      "check" (checkboxField (named "agree")) (by simp [customFields])
      (by simp [checkboxField, textField, BaseField.Attrs])).1⟩

/-- C7: registering a field whose `Attrs()` is nil under a name that is not present
returns the error "Add a *BaseField and other initial values if needed before
registering." and leaves the registry as it was, so `GetCustom` of the name is
still nil; and whatever sequence of registrations is made, every entry that is not
an initial one is a registered field whose `Attrs()` is not nil. -/
theorem RegisterCustom_nil_attrs (reg : Registry) (name : String) (field : Field)
    (habsent : reg name = none) (hnil : field.Attrs = none) :
    (RegisterCustom reg name field).2
        = some "Add a *BaseField and other initial values if needed before registering."
    ∧ (RegisterCustom reg name field).1 = reg
    ∧ GetCustom (RegisterCustom reg name field).1 name = none
    ∧ (∀ (init : Registry) (calls : List (String × Field)) (k : String) (f : Field),
        GetCustom (registerAll init calls) k = some f →
        GetCustom init k = some f ∨ ((k, f) ∈ calls ∧ f.Attrs ≠ none)) := by
  rw [RegisterCustom_absent_nil reg name field habsent hnil]
  refine ⟨rfl, rfl, ?_, ?_⟩
  · rw [GetCustom_eq]; exact habsent
  · intro init calls k f h
    rw [GetCustom_eq] at h ⊢
    exact registerAll_entry calls init k f h

theorem RegisterCustom_nil_attrs_witness :
    customFields (textField BaseField.zero) (uploadField BaseField.zero) "bare" = none
    ∧ bareField.Attrs = none
    ∧ (RegisterCustom (customFields (textField BaseField.zero) (uploadField BaseField.zero))
        "bare" bareField).2
        = some "Add a *BaseField and other initial values if needed before registering." :=
  ⟨by simp [customFields], rfl,
    (RegisterCustom_nil_attrs
      (customFields (textField BaseField.zero) (uploadField BaseField.zero))
      "bare" bareField (by simp [customFields]) rfl).1⟩

/-! ## Validation: the blank/null policy -/

/-- C3: for a field whose `Attrs().Blank` is false, when the raw value determined
for the field is the empty string and `field.Validate("")` returns a value that is
not a `bool`, `Validate` returns `(nil, error)` with the message
"This field can't be empty.", whatever `field.Validate` returned and whatever
`Attrs().Null` is. -/
theorem Validate_empty_not_blank (field : Field) (req : Request) (existing : Value)
    (attrs : BaseField) (hattrs : field.Attrs = some attrs) (hblank : attrs.Blank = false)
    (hraw : (Validate.rawValue field req existing).result = .ok "")
    (hbool : (field.Validate "").1.isBool = false) :
    (Validate field req existing).result
      = .ok (Value.nil, some "This field can't be empty.") := by
  rw [Validate_of_rawValue field req existing "" hraw, policy_of_empty field attrs hattrs hbool]
  simp [hblank]

theorem Validate_empty_not_blank_witness :
    (textField (named "title")).Attrs = some (named "title")
    ∧ (named "title").Blank = false
    ∧ (Validate.rawValue (textField (named "title")) (formRequest "other" "x") .nil).result
        = .ok ""
    ∧ ((textField (named "title")).Validate "").1.isBool = false
    ∧ (Validate (textField (named "title")) (formRequest "other" "x") .nil).result
        = .ok (Value.nil, some "This field can't be empty.") :=
  ⟨rfl, rfl, rfl, rfl,
    Validate_empty_not_blank (textField (named "title")) (formRequest "other" "x") .nil
      (named "title") rfl rfl rfl rfl⟩

/-- C4: for a field whose `Attrs().Blank` is true, when the raw value determined for
the field is the empty string and `field.Validate("")` returns a value that is not
a `bool`, `Validate` returns `(nil, nil)` if `Attrs().Null` is true and `("", nil)`
if it is false; what `field.Validate` returned is discarded. -/
theorem Validate_empty_blank (field : Field) (req : Request) (existing : Value)
    (attrs : BaseField) (hattrs : field.Attrs = some attrs) (hblank : attrs.Blank = true)
    (hraw : (Validate.rawValue field req existing).result = .ok "")
    (hbool : (field.Validate "").1.isBool = false) :
    (attrs.Null = true →
        (Validate field req existing).result = .ok (Value.nil, none))
    ∧ (attrs.Null = false →
        (Validate field req existing).result = .ok (Value.str "", none)) := by
  rw [Validate_of_rawValue field req existing "" hraw, policy_of_empty field attrs hattrs hbool]
  constructor <;> intro hnull <;> simp [hblank, hnull]

theorem Validate_empty_blank_witness :
    ((Validate.rawValue (textField { named "note" with Blank := true, Null := true })
        (formRequest "other" "x") .nil).result = .ok ""
      ∧ (Validate (textField { named "note" with Blank := true, Null := true })
          (formRequest "other" "x") .nil).result = .ok (Value.nil, none))
    ∧ ((Validate.rawValue (textField { named "note" with Blank := true })
        (formRequest "other" "x") .nil).result = .ok ""
      ∧ (Validate (textField { named "note" with Blank := true })
          (formRequest "other" "x") .nil).result = .ok (Value.str "", none)) :=
  ⟨⟨rfl,
      (Validate_empty_blank (textField { named "note" with Blank := true, Null := true })
        (formRequest "other" "x") .nil { named "note" with Blank := true, Null := true }
        rfl rfl rfl rfl).1 rfl⟩,
    ⟨rfl,
      (Validate_empty_blank (textField { named "note" with Blank := true })
        (formRequest "other" "x") .nil { named "note" with Blank := true }
        rfl rfl rfl rfl).2 rfl⟩⟩

/-- C5: a bool / checkbox field is not treated as an empty field: when the raw value
determined for the field is the empty string and `field.Validate("")` returns a
`bool`, `Validate` returns exactly the pair that `field.Validate("")` returned, for
every setting of `Attrs().Blank` and `Attrs().Null`, and never the rejection
`(nil, "This field can't be empty.")` of an empty field; an error it returns is the
one `field.Validate("")` returned. -/
theorem Validate_empty_bool (field : Field) (req : Request) (existing : Value)
    (hraw : (Validate.rawValue field req existing).result = .ok "")
    (hbool : (field.Validate "").1.isBool = true) :
    (Validate field req existing).result = .ok (field.Validate "")
    ∧ (Validate field req existing).result
        ≠ .ok (Value.nil, some "This field can't be empty.")
    ∧ (∀ v : Value, (Validate field req existing).result
          = .ok (v, some "This field can't be empty.") →
        (field.Validate "").2 = some "This field can't be empty.") := by
  rw [Validate_of_rawValue field req existing "" hraw, policy_of_bool field "" hbool]
  refine ⟨rfl, ?_, ?_⟩
  · intro h
    simp only [Except.ok.injEq] at h
    rw [h] at hbool
    simp [Value.isBool] at hbool
  · intro v h
    simp only [Except.ok.injEq] at h
    rw [h]

theorem Validate_empty_bool_witness :
    (Validate.rawValue (checkboxField (named "agree")) (formRequest "other" "x") .nil).result
        = .ok ""
    ∧ ((checkboxField (named "agree")).Validate "").1.isBool = true
    ∧ (Validate (checkboxField (named "agree")) (formRequest "other" "x") .nil).result
        = .ok (Value.bool false, none) :=
  ⟨rfl, rfl,
    (Validate_empty_bool (checkboxField (named "agree")) (formRequest "other" "x") .nil
      rfl rfl).1⟩

/-! ## Validation: which raw value is validated -/

/-- C8: for a field that does not implement `FileHandlerField` and a request whose
form value under the field's name is a non-empty string `raw`, `Validate` calls
`field.Validate(raw)` and returns exactly the pair it returned, whatever
`Attrs().Blank`, `Attrs().Null` and `existing` are. -/
theorem Validate_plain_nonempty (field : Field) (req : Request) (existing : Value)
    (attrs : BaseField) (raw : String)
    (hattrs : field.Attrs = some attrs) (hplain : field.HandleFile = none)
    (hform : req.Form.Get attrs.Name = raw) (hne : raw ≠ "") :
    Validate field req existing = ⟨[.Validate raw], .ok (field.Validate raw)⟩ := by
  have hr := rawValue_plain field req existing attrs hattrs hplain
  rw [hform] at hr
  rw [Validate_of_rawValue field req existing raw (by rw [hr]), hr,
    policy_of_nonempty field raw hne]
  rfl

theorem Validate_plain_nonempty_witness :
    (formRequest "title" "Hello").Form.Get (named "title").Name = "Hello"
    ∧ "Hello" ≠ ""
    ∧ Validate (textField (named "title")) (formRequest "title" "Hello") (.int 7)
        = ⟨[.Validate "Hello"], .ok (Value.str "Hello", none)⟩ :=
  ⟨rfl, by decide,
    Validate_plain_nonempty (textField (named "title")) (formRequest "title" "Hello") (.int 7)
      (named "title") "Hello" rfl rfl rfl (by decide)⟩

/-- C9: for a field implementing `FileHandlerField` and a request with a multipart
form: when there are files under the field's name and `HandleFile` on the first of
them returns a file name without error, the raw value validated is that file name,
replacing the form value; when there is no file entry and `existing` is a string,
the raw value validated is that string; when there is no file entry and `existing`
is not a string, the raw value validated is the form value. In particular, with no
upload and a non-empty `existing` string the check for an empty field is not
applied, also for a field that is not blank: `Validate` returns what
`field.Validate(existing)` returned. -/
theorem Validate_file_handler (field : Field) (req : Request) (existing : Value)
    (attrs : BaseField) (handleFile : FileHeader → String × GoError) (form : MultipartForm)
    (hattrs : field.Attrs = some attrs) (hfile : field.HandleFile = some handleFile)
    (hform : req.MultipartForm = some form) :
    (∀ (fh : FileHeader) (rest : List FileHeader) (filename : String),
        form.File attrs.Name = some (fh :: rest) → handleFile fh = (filename, none) →
        (Validate.rawValue field req existing).result = .ok filename
        ∧ Validate field req existing
            = ⟨[.HandleFile fh, .Validate filename], Validate.policy field filename⟩)
    ∧ (∀ old : String, form.File attrs.Name = none → existing = .str old →
        (Validate.rawValue field req existing).result = .ok old
        ∧ Validate field req existing = ⟨[.Validate old], Validate.policy field old⟩)
    ∧ (form.File attrs.Name = none → (∀ s, existing ≠ .str s) →
        (Validate.rawValue field req existing).result = .ok (req.Form.Get attrs.Name)
        ∧ Validate field req existing
            = ⟨[.Validate (req.Form.Get attrs.Name)],
                Validate.policy field (req.Form.Get attrs.Name)⟩)
    ∧ (∀ old : String, form.File attrs.Name = none → existing = .str old → old ≠ "" →
        Validate field req existing = ⟨[.Validate old], .ok (field.Validate old)⟩) := by
  refine ⟨?_, ?_, ?_, ?_⟩
  · intro fh rest filename hfiles hhandled
    have hr := rawValue_upload field req existing attrs handleFile form fh rest filename
      hattrs hfile hform hfiles hhandled
    rw [Validate_of_rawValue field req existing filename (by rw [hr]), hr]
    exact ⟨rfl, rfl⟩
  · intro old hfiles hexisting
    subst hexisting
    have hr := rawValue_existing field req old attrs handleFile form hattrs hfile hform hfiles
    rw [Validate_of_rawValue field req (.str old) old (by rw [hr]), hr]
    exact ⟨rfl, rfl⟩
  · intro hfiles hexisting
    have hr := rawValue_no_upload field req existing attrs handleFile form hattrs hfile hform
      hfiles hexisting
    rw [Validate_of_rawValue field req existing _ (by rw [hr]), hr]
    exact ⟨rfl, rfl⟩
  · intro old hfiles hexisting hne
    subst hexisting
    have hr := rawValue_existing field req old attrs handleFile form hattrs hfile hform hfiles
    rw [Validate_of_rawValue field req (.str old) old (by rw [hr]), hr,
      policy_of_nonempty field old hne]
    rfl

theorem Validate_file_handler_witness :
    Validate (uploadField (named "doc"))
        (multipartRequest "doc" "" (some [⟨"upload.png", 10⟩])) (.str "old.png")
      = ⟨[.HandleFile ⟨"upload.png", 10⟩, .Validate "upload.png"],
          .ok (Value.str "upload.png", none)⟩
    ∧ Validate (uploadField (named "doc")) (multipartRequest "doc" "" none) (.str "old.png")
      = ⟨[.Validate "old.png"], .ok (Value.str "old.png", none)⟩
    ∧ Validate (uploadField (named "doc")) (multipartRequest "doc" "" none) .nil
      = ⟨[.Validate ""], .ok (Value.nil, some "This field can't be empty.")⟩ :=
  ⟨((Validate_file_handler (uploadField (named "doc"))
        (multipartRequest "doc" "" (some [⟨"upload.png", 10⟩])) (.str "old.png")
        (named "doc") (fun fh => (fh.Filename, none)) _ rfl rfl rfl).1
        ⟨"upload.png", 10⟩ [] "upload.png" rfl rfl).2,
    (Validate_file_handler (uploadField (named "doc"))
        (multipartRequest "doc" "" none) (.str "old.png")
        (named "doc") (fun fh => (fh.Filename, none)) _ rfl rfl rfl).2.2.2
        "old.png" rfl rfl (by decide),
    ((Validate_file_handler (uploadField (named "doc"))
        (multipartRequest "doc" "" none) .nil
        (named "doc") (fun fh => (fh.Filename, none)) _ rfl rfl rfl).2.2.1
        rfl (fun s h => Value.noConfusion h)).2⟩

/-- C6, evaluated on the code: a file field whose form value is the non-empty
"typed" still has `HandleFile` called when a file is uploaded under its name, and
the value validated is the stored file name; with no upload and an `existing`
string, the value validated is `existing`. In neither run is the form value
"typed" what `field.Validate` receives. -/
theorem Validate_file_handled_despite_form_value :
    (multipartRequest "doc" "typed" (some [⟨"upload.png", 10⟩])).Form.Get
        (named "doc").Name = "typed"
    ∧ Validate (uploadField (named "doc"))
        (multipartRequest "doc" "typed" (some [⟨"upload.png", 10⟩])) .nil
      = ⟨[.HandleFile ⟨"upload.png", 10⟩, .Validate "upload.png"],
          .ok (Value.str "upload.png", none)⟩
    ∧ Validate (uploadField (named "doc")) (multipartRequest "doc" "typed" none)
        (.str "old.png")
      = ⟨[.Validate "old.png"], .ok (Value.str "old.png", none)⟩ :=
  ⟨rfl, rfl, rfl⟩

/-! ## Rendering: the layout width -/

/-- C10: `BaseRender` sets the receiver's `Width` to 12 when it was 0 and leaves it
as it was otherwise; the context holds that resulting width under "width", which
is therefore not 0 when `Width` was 0; every other attribute of the receiver is
unchanged; and a second `BaseRender`, with whatever arguments, changes nothing in
the receiver. -/
theorem BaseRender_width (fieldWrapper : Template) (b : BaseField) (tmpl : Template)
    (value : Value) (errStr : String) (startRow : Bool) (ctx : Option Ctx) :
    (b.Width = 0 →
        (BaseField.BaseRender fieldWrapper b tmpl value errStr startRow ctx).b.Width = 12)
    ∧ (b.Width ≠ 0 →
        (BaseField.BaseRender fieldWrapper b tmpl value errStr startRow ctx).b.Width = b.Width)
    ∧ (BaseField.BaseRender fieldWrapper b tmpl value errStr startRow ctx).ctx "width"
        = some (.int (BaseField.BaseRender fieldWrapper b tmpl value errStr startRow ctx).b.Width)
    ∧ (b.Width = 0 →
        (BaseField.BaseRender fieldWrapper b tmpl value errStr startRow ctx).ctx "width"
          = some (.int 12))
    ∧ (BaseField.BaseRender fieldWrapper b tmpl value errStr startRow ctx).ctx "width"
        ≠ some (.int 0)
    ∧ ((BaseField.BaseRender fieldWrapper b tmpl value errStr startRow ctx).b.Name = b.Name
      ∧ (BaseField.BaseRender fieldWrapper b tmpl value errStr startRow ctx).b.Label = b.Label
      ∧ (BaseField.BaseRender fieldWrapper b tmpl value errStr startRow ctx).b.DefaultValue
          = b.DefaultValue
      ∧ (BaseField.BaseRender fieldWrapper b tmpl value errStr startRow ctx).b.Blank = b.Blank
      ∧ (BaseField.BaseRender fieldWrapper b tmpl value errStr startRow ctx).b.Null = b.Null
      ∧ (BaseField.BaseRender fieldWrapper b tmpl value errStr startRow ctx).b.ColumnName
          = b.ColumnName
      ∧ (BaseField.BaseRender fieldWrapper b tmpl value errStr startRow ctx).b.List = b.List
      ∧ (BaseField.BaseRender fieldWrapper b tmpl value errStr startRow ctx).b.Searchable
          = b.Searchable
      ∧ (BaseField.BaseRender fieldWrapper b tmpl value errStr startRow ctx).b.Right = b.Right
      ∧ (BaseField.BaseRender fieldWrapper b tmpl value errStr startRow ctx).b.Help = b.Help
      ∧ (BaseField.BaseRender fieldWrapper b tmpl value errStr startRow ctx).b.RelationTable
          = b.RelationTable)
    ∧ (∀ (fieldWrapper2 tmpl2 : Template) (value2 : Value) (errStr2 : String)
        (startRow2 : Bool) (ctx2 : Option Ctx),
        (BaseField.BaseRender fieldWrapper2
            (BaseField.BaseRender fieldWrapper b tmpl value errStr startRow ctx).b
            tmpl2 value2 errStr2 startRow2 ctx2).b
          = (BaseField.BaseRender fieldWrapper b tmpl value errStr startRow ctx).b) := by
  rw [BaseRender_ctx_width, BaseRender_b]
  refine ⟨?_, ?_, ?_, ?_, ?_, ?_, ?_⟩
  · intro hw; simp [hw]
  · intro hw; simp [hw]
  · rfl
  · intro hw; simp [hw]
  · by_cases hw : b.Width = 0 <;> simp [hw]
  · by_cases hw : b.Width = 0 <;> simp [hw]
  · intro fieldWrapper2 tmpl2 value2 errStr2 startRow2 ctx2
    rw [BaseRender_b]
    by_cases hw : b.Width = 0 <;> simp [hw]

theorem BaseRender_width_witness :
    (BaseField.BaseRender (fun _ => ("", none)) (named "title") (fun _ => ("", none))
        (.str "v") "" false none).b.Width = 12
    ∧ (BaseField.BaseRender (fun _ => ("", none)) { named "title" with Width := 6 }
        (fun _ => ("", none)) (.str "v") "" false none).b.Width = 6 :=
  ⟨(BaseRender_width (fun _ => ("", none)) (named "title") (fun _ => ("", none))
      (.str "v") "" false none).1 rfl,
    (BaseRender_width (fun _ => ("", none)) { named "title" with Width := 6 }
      (fun _ => ("", none)) (.str "v") "" false none).2.1 (by decide)⟩

end Fields
